import Mathlib

/-
Shallow embedding of the session lifecycle manager (AuthService) of the
dev-bookstore repository, together with proofs of the specified properties.

Modelling conventions:
- The Prisma user table is a `List User`; `findFirstOrThrow`/`findUnique`
  become `List.find?`, `create` appends (failing with code P2002 when the
  unique email already occurs), `update` maps over the matching rows
  (failing with code P2025 when none matches), `updateMany` maps over the
  matching rows and never fails on zero matches.
- Thrown exceptions become the `Except`-style `AppError` component of each
  operation result; every operation returns the resulting store, the list
  of transport actions it performed on the express `Response` (cookies set,
  redirects issued), and its outcome.  An operation that throws before any
  store write returns the input store unchanged and an empty action list,
  matching exception semantics of the source.
- The external argon2 hasher is modelled by an injective tagging function
  `hash` with `verify stored plain = (stored == hash plain)`: the ideal
  behaviour of a collision-free one-way hash, which is what the code relies
  on.
- The external JWT signer is an explicit parameter (`Signer`), as the
  source receives `JwtService` by dependency injection; `signAsync` may
  fail, and `Promise.all` semantics make `getTokens` fail when either of
  its two signing calls fails.
-/

deriving instance DecidableEq for Except

namespace Bookstore

/-- Role enumeration of the Prisma schema (referenced by the spec as an
enumerated role such as standard/admin). -/
inductive Role where
  | USER
  | ADMIN
deriving DecidableEq

/-- The Prisma `User` record: id, unique email, password hash, display name,
role, nullable refresh-token fingerprint, timestamps. -/
structure User where
  id : Nat
  email : String
  password : String
  name : String
  role : Role
  refreshToken : Option String
  createdAt : Nat
  updatedAt : Nat
deriving DecidableEq

structure SignupDto where
  email : String
  password : String
  name : String
deriving DecidableEq

structure LoginDto where
  email : String
  password : String
deriving DecidableEq

/-- Claims payload passed to both signing calls in `getTokens`. -/
structure JwtPayload where
  sub : Nat
  role : Role
  email : String
deriving DecidableEq

structure Tokens where
  access_token : String
  refresh_token : String
deriving DecidableEq

/-- Shape of `restOfUser` after the source destructures away `password`,
`refreshToken`, `createdAt`, `updatedAt` (signup/login), respectively after
the projecting `select` plus destructuring away `refreshToken` (refresh). -/
structure SanitizedUser where
  id : Nat
  email : String
  name : String
  role : Role
deriving DecidableEq

/-- Return payload of login and refresh: the sanitized user plus the pair. -/
structure AuthPayload where
  user : SanitizedUser
  tokens : Tokens
deriving DecidableEq

/-- Errors an operation can throw: the Nest HTTP exceptions raised by the
service, Prisma known request errors that escape it, and a rejected
`signAsync` promise. -/
inductive AppError where
  | badRequest (msg : String)
  | unauthorized (msg : String)
  | forbidden (msg : String)
  | conflict (msgs : List String)
  | prismaKnown (code : String)
  | signFail (msg : String)
deriving DecidableEq

/-- Observable actions performed on the express `Response`. -/
inductive ResAction where
  | cookie (name : String) (value : String) (maxAge : Option Nat)
  | redirect (url : String)
deriving DecidableEq

/-- The `ConfigService` values the service reads. -/
structure Config where
  jwtAccessSecret : String
  jwtRefreshSecret : String
  clientOrigin : String

/-- The injected `JwtService`: `signAsync payload secret expiresIn` either
resolves with a token string or rejects with an error message. -/
structure Signer where
  signAsync : JwtPayload → String → String → Except String String

/-- Model of the external argon2 `hash`: an injective tag, standing for an
ideal collision-free one-way hash. -/
def hash (s : String) : String := "$argon2$" ++ s

/-- Model of the external argon2 `verify stored plain`: true exactly when
`stored` is the hash of `plain`. -/
def verify (stored : String) (plain : String) : Bool := stored == hash plain

/-- Source `AuthService.getTokens`: builds the claims payload
`{sub, role, email}` and signs it twice through `Promise.all` — once with
the access secret and `expiresIn` 15m, once with the refresh secret and
`expiresIn` 7d.  `Promise.all` resolves only when both resolve; if either
signing call rejects the whole issuance rejects.  The method touches no
store, hence takes and returns none. -/
def getTokens (cfg : Config) (sg : Signer) (userId : Nat) (email : String)
    (role : Role) : Except String Tokens :=
  let jwtPayload : JwtPayload := { sub := userId, role := role, email := email }
  match sg.signAsync jwtPayload cfg.jwtAccessSecret "15m",
        sg.signAsync jwtPayload cfg.jwtRefreshSecret "7d" with
  | .ok accessToken, .ok refreshToken =>
      .ok { access_token := accessToken, refresh_token := refreshToken }
  | .error e, _ => .error e
  | _, .error e => .error e

/-- Source `AuthService.saveTokensInCookies`: sets the two token cookies
with maxAge 900000 ms and 604800000 ms. -/
def saveTokensInCookies (tokens : Tokens) : List ResAction :=
  [ .cookie "ACCESS_TOKEN" tokens.access_token (some 900000),
    .cookie "REFRESH_TOKEN" tokens.refresh_token (some 604800000) ]

/-- Source `AuthService.removeTokensInCookies`: expires both cookies
immediately (maxAge 0). -/
def removeTokensInCookies : List ResAction :=
  [ .cookie "ACCESS_TOKEN" "" (some 0),
    .cookie "REFRESH_TOKEN" "" (some 0) ]

/-- The destructuring `const (password, refreshToken, createdAt, updatedAt,
...restOfUser) = user` of the source, as a projection. -/
def sanitizeUser (u : User) : SanitizedUser :=
  { id := u.id, email := u.email, name := u.name, role := u.role }

/-- Row transformation of `prisma.user.update` inside `updateRtHash`: the
row with the given id gets the new fingerprint, every other row is kept. -/
def setRtRow (userId : Nat) (hashed : String) (u : User) : User :=
  if u.id == userId then { u with refreshToken := some hashed } else u

/-- Source `AuthService.updateRtHash`: hashes the refresh token and runs
`prisma.user.update` on the row with the given id; Prisma `update` throws
known error P2025 when no row matches. -/
def updateRtHash (store : List User) (userId : Nat) (rt : String) :
    Except AppError (List User) :=
  let hashedRefreshToken := hash rt
  if store.any (fun u => u.id == userId) then
    .ok (store.map (setRtRow userId hashedRefreshToken))
  else
    .error (.prismaKnown "P2025")

/-- Prisma `user.create`: inserts the record with defaulted id, role USER,
null fingerprint and timestamps, or throws known error P2002 when the
unique email already exists. -/
def userCreate (store : List User) (newId now : Nat)
    (email password name : String) : Except AppError (List User × User) :=
  if store.any (fun u => u.email == email) then
    .error (.prismaKnown "P2002")
  else
    let u : User := { id := newId, email := email, password := password,
                      name := name, role := .USER, refreshToken := none,
                      createdAt := now, updatedAt := now }
    .ok (store ++ [u], u)

/-- The catch block of `AuthService.signup`: a Prisma known request error
whose code is P2002 becomes `ConflictException` with message list
`[Email is already in use]`; every other error is rethrown unchanged. -/
def signupCatch (e : AppError) : AppError :=
  match e with
  | .prismaKnown code =>
      if code == "P2002" then .conflict ["Email is already in use"]
      else .prismaKnown code
  | e => e

/-- Source `AuthService.signup`: hash the password, attempt the insert (no
pre-existence check — the conflict is detected from the store error), map
P2002 to Conflict in the catch, return the sanitized user on success. -/
def signup (store : List User) (newId now : Nat) (dto : SignupDto) :
    List User × Except AppError SanitizedUser :=
  let hashedPassword := hash dto.password
  match userCreate store newId now dto.email hashedPassword dto.name with
  | .ok (store2, user) => (store2, .ok (sanitizeUser user))
  | .error e => (store, .error (signupCatch e))

/-- Message constant `ERROR` of `AuthService.login`. -/
def loginError : String := "Email or password incorrect."

/-- Try block of `AuthService.login`: `findFirstOrThrow` by email (throws
Prisma known error P2025 when absent), verify the password against the
stored hash and throw `BadRequestException` on mismatch, issue tokens,
persist the new fingerprint, set the cookies, return sanitized user and
tokens. -/
def loginTry (cfg : Config) (sg : Signer) (store : List User) (dto : LoginDto) :
    List User × List ResAction × Except AppError AuthPayload :=
  match store.find? (fun u => u.email == dto.email) with
  | none => (store, [], .error (.prismaKnown "P2025"))
  | some user =>
    if verify user.password dto.password = false then
      (store, [], .error (.badRequest loginError))
    else
      match getTokens cfg sg user.id user.email user.role with
      | .error e => (store, [], .error (.signFail e))
      | .ok tokens =>
        match updateRtHash store user.id tokens.refresh_token with
        | .error e => (store, [], .error e)
        | .ok store2 =>
          (store2, saveTokensInCookies tokens,
           .ok { user := sanitizeUser user, tokens := tokens })

/-- Source `AuthService.login`: the try block wrapped in the catch that maps
a Prisma known request error with code P2025 to `UnauthorizedException` with
the generic message, and rethrows everything else unchanged. -/
def login (cfg : Config) (sg : Signer) (store : List User) (dto : LoginDto) :
    List User × List ResAction × Except AppError AuthPayload :=
  let r := loginTry cfg sg store dto
  match r.2.2 with
  | .error (.prismaKnown code) =>
      if code == "P2025" then (r.1, r.2.1, .error (.unauthorized loginError))
      else r
  | _ => r

/-- Row transformation of the `updateMany` inside `logout`: a row matching
the filter (given id and non-null fingerprint) gets its fingerprint cleared,
every other row is kept. -/
def logoutRow (userId : Nat) (u : User) : User :=
  if u.id == userId && u.refreshToken.isSome
  then { u with refreshToken := none } else u

/-- Source `AuthService.logout`: `updateMany` on rows with the given id and
a non-null fingerprint, setting the fingerprint to null (zero matched rows
is a success), then expire both cookies and return true. -/
def logout (store : List User) (userId : Nat) :
    List User × List ResAction × Bool :=
  (store.map (logoutRow userId), removeTokensInCookies, true)

/-- Message of the `ForbiddenException` thrown by refresh. -/
def accessDenied : String := "Access Denied."

/-- Source `AuthService.refreshTokens`: `findUnique` by id (with the
projecting select), throw Forbidden when the user is absent or the stored
fingerprint is null, verify the presented token against the fingerprint and
throw Forbidden on mismatch, then issue tokens, persist the new fingerprint,
set the cookies and return the sanitized user plus the new pair. -/
def refreshTokens (cfg : Config) (sg : Signer) (store : List User)
    (userId : Nat) (rt : String) :
    List User × List ResAction × Except AppError AuthPayload :=
  match store.find? (fun u => u.id == userId) with
  | none => (store, [], .error (.forbidden accessDenied))
  | some user =>
    match user.refreshToken with
    | none => (store, [], .error (.forbidden accessDenied))
    | some storedFp =>
      if verify storedFp rt = false then
        (store, [], .error (.forbidden accessDenied))
      else
        match getTokens cfg sg user.id user.email user.role with
        | .error e => (store, [], .error (.signFail e))
        | .ok tokens =>
          match updateRtHash store user.id tokens.refresh_token with
          | .error e => (store, [], .error e)
          | .ok store2 =>
            (store2, saveTokensInCookies tokens,
             .ok { user := sanitizeUser user, tokens := tokens })

/-- Identity `{id, email, role}` delivered by the federated (Google)
handshake on `req.user`. -/
structure GoogleUser where
  id : Nat
  email : String
  role : Role

/-- JavaScript truthiness of the `tokens` object in the source guard
`if (!tokens)`: `getTokens` resolves with an object, and an object value is
never falsy in JavaScript, so this is constantly false. -/
def tokensIsFalsy (_ : Tokens) : Bool := false

/-- Source `AuthService.googleAuthCallback`: awaits `getTokens` (a rejected
promise propagates), guards `if (!tokens)` with a redirect to CLIENT_ORIGIN
(dead, see `tokensIsFalsy`), persists the fingerprint, sets the stray test
cookie and then the token cookies. -/
def googleAuthCallback (cfg : Config) (sg : Signer) (store : List User)
    (reqUser : GoogleUser) :
    List User × List ResAction × Except AppError Unit :=
  match getTokens cfg sg reqUser.id reqUser.email reqUser.role with
  | .error e => (store, [], .error (.signFail e))
  | .ok tokens =>
    if tokensIsFalsy tokens then
      (store, [ .redirect cfg.clientOrigin ], .ok ())
    else
      match updateRtHash store reqUser.id tokens.refresh_token with
      | .error e => (store, [], .error e)
      | .ok store2 =>
        (store2, .cookie "test" "hola" none :: saveTokensInCookies tokens, .ok ())

/-- Ideal signer used for concrete scenarios: deterministic, always
resolves, token distinct for distinct secret or payload. -/
def idealSigner : Signer :=
  { signAsync := fun p secret expiresIn =>
      .ok (secret ++ "." ++ toString p.sub ++ "." ++ p.email ++ "." ++ expiresIn) }

/-- A signer whose every signing call rejects, to exercise issuance
failure. -/
def failingSigner (msg : String) : Signer :=
  { signAsync := fun _ _ _ => .error msg }

/-- Concrete configuration for scenario witnesses. -/
def cfg0 : Config :=
  { jwtAccessSecret := "as", jwtRefreshSecret := "rs",
    clientOrigin := "client-origin" }

/-- Concrete user for scenario witnesses. -/
def ann : User :=
  { id := 1, email := "a@x.com", password := hash "pw1", name := "Ann",
    role := .USER, refreshToken := none, createdAt := 0, updatedAt := 0 }

/-- Ann after a login that stored the fingerprint of refresh token rt1. -/
def annL : User := { ann with refreshToken := some (hash "rt1") }

/-- The token pair the ideal signer issues for Ann under `cfg0`. -/
def tokensAnn : Tokens :=
  { access_token := "as.1.a@x.com.15m", refresh_token := "rs.1.a@x.com.7d" }

/-- Ann after a refresh that rotated the fingerprint to the new token. -/
def annR : User := { ann with refreshToken := some (hash "rs.1.a@x.com.7d") }

/-- The model hash is injective, as a collision-free hash. -/
theorem hash_injective {a b : String} (h : hash a = hash b) : a = b := by
  have hd := congrArg String.data h
  simp only [hash, String.data_append] at hd
  exact String.ext (List.append_cancel_left hd)

/-- Verification against a stored fingerprint succeeds exactly for the
hashed token. -/
theorem verify_hash_eq_iff (x t : String) : verify (hash x) t = true ↔ t = x := by
  simp only [verify, beq_iff_eq]
  exact ⟨fun h => (hash_injective h).symm, fun h => by rw [h]⟩

/-- Mapping a row transformation that preserves a predicate commutes with
the store lookup. -/
theorem find_map_pred (f : User → User) (p : User → Bool)
    (hp : ∀ u, p (f u) = p u) (l : List User) :
    (l.map f).find? p = (l.find? p).map f := by
  induction l with
  | nil => rfl
  | cons a l ih =>
    by_cases ha : p a = true
    · rw [List.map_cons, List.find?_cons_of_pos _ (by rw [hp]; exact ha),
          List.find?_cons_of_pos _ ha]
      rfl
    · rw [List.map_cons, List.find?_cons_of_neg _ (by rw [hp]; exact ha),
          List.find?_cons_of_neg _ ha]
      exact ih

/-- A row transformation that fixes every row of the store leaves the store
unchanged. -/
theorem map_fixed_eq_self {f : User → User} {l : List User}
    (h : ∀ u ∈ l, f u = u) : l.map f = l := by
  have h2 : l.map f = l.map id := List.map_congr_left h
  simpa using h2

/-- Row transformations of the fingerprint column preserve the id lookup
predicate. -/
theorem setRtRow_id (userId userId2 : Nat) (hashed : String) (u : User) :
    ((setRtRow userId hashed u).id == userId2) = (u.id == userId2) := by
  unfold setRtRow
  split <;> rfl

theorem logoutRow_id (userId userId2 : Nat) (u : User) :
    ((logoutRow userId u).id == userId2) = (u.id == userId2) := by
  unfold logoutRow
  split <;> rfl

/-- After the logout row transformation, a row matching the id has a null
fingerprint. -/
theorem logoutRow_clears (userId : Nat) (u : User)
    (hid : ((logoutRow userId u).id == userId) = true) :
    (logoutRow userId u).refreshToken = none := by
  unfold logoutRow at hid ⊢
  by_cases h : (u.id == userId) = true
  · by_cases hs : u.refreshToken.isSome = true
    · simp [h, hs]
    · have hn : u.refreshToken = none :=
        Option.not_isSome_iff_eq_none.mp (fun hh => hs hh)
      simp [h, hs, hn]
  · rw [if_neg (by simp [h])] at hid
    exact absurd hid h

/-- The record a store lookup by id returns satisfies the lookup
predicate. -/
theorem find_id_pred {l : List User} {userId : Nat} {u : User}
    (h : l.find? (fun v => v.id == userId) = some u) :
    (u.id == userId) = true :=
  @List.find?_some User (fun v => v.id == userId) u l h

/-- The logout row transformation fixes any row that has no fingerprint to
clear. -/
theorem logoutRow_fixed {userId : Nat} {u : User}
    (h : (u.id == userId) = true → u.refreshToken = none) :
    logoutRow userId u = u := by
  unfold logoutRow
  by_cases hid : (u.id == userId) = true
  · simp [hid, h hid]
  · rw [if_neg (by simp [hid])]

/-- Claim C2, counterexample: with the stored user `a@x.com` whose password
hash is that of pw1, a login with the wrong password fails with
`BadRequestException` (status 400) and message `Email or password
incorrect.` — not with `Unauthorized` as the claim states, and not with the
lowercase message the claim quotes. -/
theorem login_wrong_password_counterexample :
    (login cfg0 idealSigner [ann]
        { email := "a@x.com", password := "wrong" }).2.2
      = .error (.badRequest "Email or password incorrect.")
    ∧ (login cfg0 idealSigner [ann]
        { email := "a@x.com", password := "wrong" }).2.2
      ≠ .error (.unauthorized "email or password incorrect") := by
  exact ⟨rfl, by decide⟩

/-- Claim C2 as amended: an unknown email fails with `Unauthorized` while a
stored user whose password does not verify fails with `BadRequest`; the two
failures carry the identical generic message `Email or password incorrect.`
(the constant `loginError`), but their statuses differ. -/
theorem login_failure_status_amended (cfg : Config) (sg : Signer)
    (store : List User) (dto : LoginDto) :
    (store.find? (fun u => u.email == dto.email) = none →
      (login cfg sg store dto).2.2 = .error (.unauthorized loginError))
    ∧ (∀ u, store.find? (fun u => u.email == dto.email) = some u →
        verify u.password dto.password = false →
        (login cfg sg store dto).2.2 = .error (.badRequest loginError)) := by
  constructor
  · intro hf
    simp [login, loginTry, hf]
  · intro u hf hv
    simp [login, loginTry, hf, hv]

/-- Claim C2, witness for the amended statement: the two concrete failures
of the spec scenario. -/
theorem login_failure_status_witness :
    (login cfg0 idealSigner [ann]
        { email := "b@x.com", password := "pw1" }).2.2
      = .error (.unauthorized loginError)
    ∧ (login cfg0 idealSigner [ann]
        { email := "a@x.com", password := "wrong" }).2.2
      = .error (.badRequest loginError) :=
  ⟨(login_failure_status_amended cfg0 idealSigner [ann]
      { email := "b@x.com", password := "pw1" }).1 rfl,
   (login_failure_status_amended cfg0 idealSigner [ann]
      { email := "a@x.com", password := "wrong" }).2 ann rfl rfl⟩

/-- Claim C4: evaluation of the federated callback at a failing issuance.
When `signAsync` rejects, `getTokens` rejects, so the awaited call in
`googleAuthCallback` throws: the error propagates to the caller, no store
write happens and no redirect (nor any other response action) is issued.
The `if (not tokens)` guard of the source never fires because `getTokens`
either throws or resolves with an object, and an object is never falsy. -/
theorem googleAuthCallback_issuance_failure_raises :
    googleAuthCallback cfg0 (failingSigner "sign failure") [ann]
        { id := 1, email := "a@x.com", role := Role.USER }
      = ([ann], [], .error (.signFail "sign failure"))
    ∧ tokensIsFalsy tokensAnn = false := by
  exact ⟨rfl, rfl⟩

/-- Claim C9: logout always reports success — its result type carries no
error — and with a user id absent from the store the conditional update
matches zero rows, leaving the store unchanged while still expiring both
cookies and returning true. -/
theorem logout_unknown_user (store : List User) (userId : Nat) :
    (logout store userId).2.2 = true
    ∧ ((∀ u, u ∈ store → (u.id == userId) = false) →
        logout store userId = (store, removeTokensInCookies, true)) := by
  refine ⟨rfl, ?_⟩
  intro h
  have hfix : store.map (logoutRow userId) = store :=
    map_fixed_eq_self (fun u hu =>
      logoutRow_fixed (fun hid => absurd hid (by simp [h u hu])))
  simp [logout, hfix]

/-- Claim C9, witness: logging out the absent user id 99 from the one-user
store succeeds and changes nothing. -/
theorem logout_unknown_user_witness :
    logout [ann] 99 = ([ann], removeTokensInCookies, true) :=
  (logout_unknown_user [ann] 99).2
    (fun u hu => by
      have : u = ann := by simpa using hu
      rw [this]
      rfl)

/-- Claim C6: logout reports success, instructs the transport to expire
both token cookies, clears the stored fingerprint of every row matching the
user id, is a no-op on the store when the matching rows already have no
fingerprint (the update is conditional on a non-null fingerprint), and is
idempotent: a second logout in a row also reports success and leaves the
store of the first unchanged. -/
theorem logout_idempotent_spec (store : List User) (userId : Nat) :
    (logout store userId).2.2 = true
    ∧ (logout store userId).2.1
        = [ ResAction.cookie "ACCESS_TOKEN" "" (some 0),
            ResAction.cookie "REFRESH_TOKEN" "" (some 0) ]
    ∧ (∀ u, u ∈ (logout store userId).1 → (u.id == userId) = true →
        u.refreshToken = none)
    ∧ ((∀ u, u ∈ store → (u.id == userId) = true → u.refreshToken = none) →
        (logout store userId).1 = store)
    ∧ logout (logout store userId).1 userId
        = ((logout store userId).1,
           [ ResAction.cookie "ACCESS_TOKEN" "" (some 0),
             ResAction.cookie "REFRESH_TOKEN" "" (some 0) ], true) := by
  have hclear : ∀ u, u ∈ (logout store userId).1 → (u.id == userId) = true →
      u.refreshToken = none := by
    intro u hu hid
    rcases List.mem_map.mp hu with ⟨v, hv, hfv⟩
    rw [← hfv] at hid ⊢
    exact logoutRow_clears userId v hid
  have hnoop : ∀ l : List User,
      (∀ u, u ∈ l → (u.id == userId) = true → u.refreshToken = none) →
      l.map (logoutRow userId) = l := by
    intro l h
    exact map_fixed_eq_self (fun u hu => logoutRow_fixed (h u hu))
  refine ⟨rfl, rfl, hclear, hnoop store, ?_⟩
  have hfix : (logout store userId).1.map (logoutRow userId)
      = (logout store userId).1 := hnoop _ hclear
  simp only [logout] at hfix ⊢
  rw [hfix]
  rfl

/-- Claim C6, witness: logging out Ann while her fingerprint is stored and
then logging out again — the second call succeeds on the already-cleared
store and leaves it unchanged. -/
theorem logout_idempotent_witness :
    logout (logout [annL] 1).1 1
      = ((logout [annL] 1).1,
         [ ResAction.cookie "ACCESS_TOKEN" "" (some 0),
           ResAction.cookie "REFRESH_TOKEN" "" (some 0) ], true) :=
  (logout_idempotent_spec [annL] 1).2.2.2.2

/-- Claim C5: signup with an email already present fails with Conflict and
message list `[Email is already in use]` whatever the other fields hold,
leaving the store unchanged; the conflict comes from mapping the store
uniqueness-violation code P2002 in the catch block (no pre-existence check
is run — `signup` calls `userCreate` directly on the raw input), and the
catch maps exactly the code P2002: every other error passes through
`signupCatch` unchanged. -/
theorem signup_conflict_spec (store : List User) (newId now : Nat)
    (dto : SignupDto) :
    ((∃ u, u ∈ store ∧ u.email = dto.email) →
        signup store newId now dto
          = (store, .error (.conflict ["Email is already in use"])))
    ∧ signupCatch (.prismaKnown "P2002") = .conflict ["Email is already in use"]
    ∧ (∀ e, e ≠ .prismaKnown "P2002" → signupCatch e = e) := by
  refine ⟨?_, rfl, ?_⟩
  · rintro ⟨u, hu, he⟩
    have hany : store.any (fun v => v.email == dto.email) = true :=
      List.any_eq_true.mpr ⟨u, hu, by simp [he]⟩
    simp [signup, userCreate, hany, signupCatch]
  · intro e he
    cases e with
    | prismaKnown code =>
      have hc : (code == "P2002") = false := by
        by_cases h : code = "P2002"
        · exact absurd (by rw [h]) he
        · simp [h]
      simp [signupCatch, hc]
    | badRequest m => rfl
    | unauthorized m => rfl
    | forbidden m => rfl
    | conflict m => rfl
    | signFail m => rfl

/-- Claim C5, witness: the spec scenario — a second signup with the same
email but different password and name yields Conflict and leaves the store
as it was. -/
theorem signup_conflict_witness :
    signup [ann] 2 5 { email := "a@x.com", password := "pw2", name := "Bob" }
      = ([ann], .error (.conflict ["Email is already in use"])) :=
  (signup_conflict_spec [ann] 2 5
      { email := "a@x.com", password := "pw2", name := "Bob" }).1
    ⟨ann, by simp, rfl⟩

/-- Claim C8: token issuance signs the same claims payload
`{sub := user id, role, email}` twice, once with the configured access
secret and expiry argument 15m and once with the configured refresh secret
and expiry argument 7d; a pair is issued exactly when both signing calls
succeed with those tokens, and if either signing call fails the whole
issuance fails — no partial pair exists.  `getTokens` neither takes nor
returns a store: it has no store side effect by construction. -/
theorem getTokens_spec (cfg : Config) (sg : Signer) (userId : Nat)
    (email : String) (role : Role) :
    (∀ t, getTokens cfg sg userId email role = .ok t ↔
        (sg.signAsync { sub := userId, role := role, email := email }
            cfg.jwtAccessSecret "15m" = .ok t.access_token
         ∧ sg.signAsync { sub := userId, role := role, email := email }
            cfg.jwtRefreshSecret "7d" = .ok t.refresh_token))
    ∧ (∀ e, (sg.signAsync { sub := userId, role := role, email := email }
            cfg.jwtAccessSecret "15m" = .error e
          ∨ sg.signAsync { sub := userId, role := role, email := email }
            cfg.jwtRefreshSecret "7d" = .error e) →
        ∃ e2, getTokens cfg sg userId email role = .error e2) := by
  refine ⟨fun t => ?_, fun e h => ?_⟩
  · cases t with
    | mk ta tr =>
      cases ha : sg.signAsync { sub := userId, role := role, email := email }
          cfg.jwtAccessSecret "15m" with
      | error e => simp [getTokens, ha]
      | ok a =>
        cases hr : sg.signAsync { sub := userId, role := role, email := email }
            cfg.jwtRefreshSecret "7d" with
        | error e => simp [getTokens, ha, hr]
        | ok r => simp [getTokens, ha, hr]
  · cases ha : sg.signAsync { sub := userId, role := role, email := email }
        cfg.jwtAccessSecret "15m" with
    | error e2 => exact ⟨e2, by simp [getTokens, ha]⟩
    | ok a =>
      cases hr : sg.signAsync { sub := userId, role := role, email := email }
          cfg.jwtRefreshSecret "7d" with
      | error e2 => exact ⟨e2, by simp [getTokens, ha, hr]⟩
      | ok r =>
        exfalso
        rcases h with h | h
        · rw [ha] at h
          cases h
        · rw [hr] at h
          cases h

/-- Claim C8, witness: the ideal signer issues the concrete pair for Ann,
and with a signer whose calls reject the issuance as a whole fails. -/
theorem getTokens_spec_witness :
    getTokens cfg0 idealSigner 1 "a@x.com" Role.USER = .ok tokensAnn
    ∧ ∃ e2, getTokens cfg0 (failingSigner "boom") 1 "a@x.com" Role.USER
        = .error e2 :=
  ⟨((getTokens_spec cfg0 idealSigner 1 "a@x.com" Role.USER).1 tokensAnn).mpr
      ⟨rfl, rfl⟩,
   (getTokens_spec cfg0 (failingSigner "boom") 1 "a@x.com" Role.USER).2 "boom"
      (Or.inl rfl)⟩

/-- Claim C10: whenever refresh fails with Forbidden, the failure is atomic
— the store (every field of every user record, the fingerprint included) is
returned unchanged and no response action delivers any token to the
caller. -/
theorem refresh_failure_frame (cfg : Config) (sg : Signer) (store : List User)
    (userId : Nat) (rt : String) (m : String)
    (h : (refreshTokens cfg sg store userId rt).2.2 = .error (.forbidden m)) :
    (refreshTokens cfg sg store userId rt).1 = store
    ∧ (refreshTokens cfg sg store userId rt).2.1 = [] := by
  cases hf : store.find? (fun u => u.id == userId) with
  | none => simp [refreshTokens, hf]
  | some user =>
    cases hrt : user.refreshToken with
    | none => simp [refreshTokens, hf, hrt]
    | some fp =>
      cases hv : verify fp rt with
      | false => simp [refreshTokens, hf, hrt, hv]
      | true =>
        cases hg : getTokens cfg sg user.id user.email user.role with
        | error e => simp [refreshTokens, hf, hrt, hv, hg]
        | ok tokens =>
          cases hu : updateRtHash store user.id tokens.refresh_token with
          | error e => simp [refreshTokens, hf, hrt, hv, hg, hu]
          | ok store2 =>
            exfalso
            simp [refreshTokens, hf, hrt, hv, hg, hu] at h

/-- Claim C10, witness: refreshing for Ann while she has no stored
fingerprint fails with Forbidden and leaves the one-user store untouched,
with no response actions. -/
theorem refresh_failure_frame_witness :
    (refreshTokens cfg0 idealSigner [ann] 1 "rt1").1 = [ann]
    ∧ (refreshTokens cfg0 idealSigner [ann] 1 "rt1").2.1 = [] :=
  refresh_failure_frame cfg0 idealSigner [ann] 1 "rt1" accessDenied rfl

/-- Claim C3: a refresh call fails with Forbidden (message `Access Denied.`)
exactly when the user id is absent from the store, or the stored
refresh-token fingerprint is null, or the presented token does not verify
against the stored fingerprint; and in particular a refresh right after a
logout for the same user id — with the last-valid token or any other —
fails with Forbidden. -/
theorem refresh_forbidden_iff (cfg : Config) (sg : Signer) (store : List User)
    (userId : Nat) (rt : String) :
    ((refreshTokens cfg sg store userId rt).2.2
        = .error (.forbidden accessDenied)
      ↔ (store.find? (fun u => u.id == userId) = none
          ∨ ∃ u, store.find? (fun u => u.id == userId) = some u
              ∧ (u.refreshToken = none
                 ∨ ∃ fp, u.refreshToken = some fp ∧ verify fp rt = false)))
    ∧ (refreshTokens cfg sg (logout store userId).1 userId rt).2.2
        = .error (.forbidden accessDenied) := by
  constructor
  · cases hf : store.find? (fun u => u.id == userId) with
    | none => simp [refreshTokens, hf]
    | some user =>
      cases hrt : user.refreshToken with
      | none => simp [refreshTokens, hf, hrt]
      | some fp =>
        cases hv : verify fp rt with
        | false => simp [refreshTokens, hf, hrt, hv]
        | true =>
          have hmem : user ∈ store := List.mem_of_find?_eq_some hf
          have hany : store.any (fun u2 => u2.id == user.id) = true :=
            List.any_eq_true.mpr ⟨user, hmem, by simp⟩
          cases hg : getTokens cfg sg user.id user.email user.role with
          | error e => simp [refreshTokens, hf, hrt, hv, hg]
          | ok tokens =>
            simp [refreshTokens, hf, hrt, hv, hg, updateRtHash, hany]
  · cases hf : (logout store userId).1.find? (fun u => u.id == userId) with
    | none => simp [refreshTokens, hf]
    | some u =>
      have hpred : (u.id == userId) = true := find_id_pred hf
      have hmem : u ∈ (logout store userId).1 := List.mem_of_find?_eq_some hf
      have hmem2 : u ∈ store.map (logoutRow userId) := hmem
      rcases List.mem_map.mp hmem2 with ⟨v, hv, hfv⟩
      have hnone : u.refreshToken = none := by
        rw [← hfv]
        exact logoutRow_clears userId v (by rw [hfv]; exact hpred)
      simp [refreshTokens, hf, hnone]

/-- Claim C1: when a refresh succeeds, the stored fingerprint afterwards
verifies exactly the newly issued refresh token (for every id-matching row
it equals the hash of the new token, and the one-way verify accepts only
that token), and a second refresh presenting the previous refresh token —
distinct from the new one, as a freshly signed token is — fails with
Forbidden. -/
theorem refresh_rotation (cfg : Config) (sg : Signer) (store store2 : List User)
    (acts : List ResAction) (payload : AuthPayload) (userId : Nat) (rt : String)
    (h1 : refreshTokens cfg sg store userId rt = (store2, acts, .ok payload))
    (h2 : rt ≠ payload.tokens.refresh_token) :
    (∀ t, verify (hash payload.tokens.refresh_token) t = true
        ↔ t = payload.tokens.refresh_token)
    ∧ (∀ u, u ∈ store2 → (u.id == userId) = true →
        u.refreshToken = some (hash payload.tokens.refresh_token))
    ∧ (refreshTokens cfg sg store2 userId rt).2.2
        = .error (.forbidden accessDenied) := by
  cases hf : store.find? (fun u => u.id == userId) with
  | none => simp [refreshTokens, hf] at h1
  | some user =>
    cases hrt : user.refreshToken with
    | none => simp [refreshTokens, hf, hrt] at h1
    | some fp =>
      cases hvv : verify fp rt with
      | false => simp [refreshTokens, hf, hrt, hvv] at h1
      | true =>
        have hmem : user ∈ store := List.mem_of_find?_eq_some hf
        have hidu : (user.id == userId) = true := find_id_pred hf
        have hany : store.any (fun u2 => u2.id == user.id) = true :=
          List.any_eq_true.mpr ⟨user, hmem, by simp⟩
        cases hg : getTokens cfg sg user.id user.email user.role with
        | error e => simp [refreshTokens, hf, hrt, hvv, hg] at h1
        | ok tokens =>
          simp [refreshTokens, hf, hrt, hvv, hg, updateRtHash, hany] at h1
          obtain ⟨hs, hacts, hp⟩ := h1
          subst hs
          subst hp
          refine ⟨fun t => verify_hash_eq_iff _ t, ?_, ?_⟩
          · intro u hu hid
            rcases List.mem_map.mp hu with ⟨v, hv2, hfv⟩
            rw [← hfv]
            unfold setRtRow
            by_cases hc : (v.id == user.id) = true
            · simp [hc]
            · exfalso
              rw [← hfv] at hid
              rw [setRtRow_id] at hid
              have e1 : user.id = userId := beq_iff_eq.mp hidu
              have e2 : v.id = userId := beq_iff_eq.mp hid
              exact hc (beq_iff_eq.mpr (by rw [e1, e2]))
          · have hfind2 :
                (store.map (setRtRow user.id (hash tokens.refresh_token))).find?
                    (fun u => u.id == userId)
                  = some (setRtRow user.id (hash tokens.refresh_token) user) := by
              rw [find_map_pred _ _
                    (fun u => setRtRow_id user.id userId (hash tokens.refresh_token) u),
                  hf]
              rfl
            have hrow : setRtRow user.id (hash tokens.refresh_token) user
                = { user with refreshToken := some (hash tokens.refresh_token) } := by
              unfold setRtRow
              simp
            have hvfalse : verify (hash tokens.refresh_token) rt = false := by
              cases hb : verify (hash tokens.refresh_token) rt with
              | false => rfl
              | true => exact absurd ((verify_hash_eq_iff _ _).mp hb) h2
            simp [refreshTokens, hfind2, hrow, hvfalse]

/-- Claim C1, witness: with the fingerprint of rt1 stored for Ann, a first
refresh with rt1 rotates the store to `annR`; the second refresh with rt1
against that store is rejected with Forbidden. -/
theorem refresh_rotation_witness :
    (refreshTokens cfg0 idealSigner [annR] 1 "rt1").2.2
      = .error (.forbidden accessDenied) :=
  (refresh_rotation cfg0 idealSigner [annL] [annR]
      (saveTokensInCookies tokensAnn)
      { user := sanitizeUser ann, tokens := tokensAnn } 1 "rt1"
      (by rfl) (by decide)).2.2

/-- Claim C7: the user record returned by a successful signup, login or
refresh is the `sanitizeUser` projection of a store record; the projection
carries only id, email, name and role, and is insensitive to the password
hash, the refresh-token fingerprint and the timestamps — neither stripped
field can reach the payload. -/
theorem sanitized_payloads (cfg : Config) (sg : Signer) (store : List User)
    (newId now : Nat) (sdto : SignupDto) (ldto : LoginDto) (userId : Nat)
    (rt : String) :
    (∀ (u : User) (p : String) (r : Option String) (c t2 : Nat),
        sanitizeUser { u with password := p, refreshToken := r,
                              createdAt := c, updatedAt := t2 }
          = sanitizeUser u)
    ∧ (∀ store2 res, signup store newId now sdto = (store2, .ok res) →
        ∃ u, res = sanitizeUser u)
    ∧ (∀ out, (login cfg sg store ldto).2.2 = .ok out →
        ∃ u, u ∈ store ∧ out.user = sanitizeUser u)
    ∧ (∀ out, (refreshTokens cfg sg store userId rt).2.2 = .ok out →
        ∃ u, u ∈ store ∧ out.user = sanitizeUser u) := by
  refine ⟨fun u p r c t2 => rfl, ?_, ?_, ?_⟩
  · intro store2 res h
    cases hc : store.any (fun v => v.email == sdto.email) with
    | true => simp [signup, userCreate, hc, signupCatch] at h
    | false =>
      simp [signup, userCreate, hc] at h
      exact ⟨_, h.2.symm⟩
  · intro out h
    cases hf : store.find? (fun u => u.email == ldto.email) with
    | none => simp [login, loginTry, hf] at h
    | some user =>
      cases hv : verify user.password ldto.password with
      | false => simp [login, loginTry, hf, hv] at h
      | true =>
        cases hg : getTokens cfg sg user.id user.email user.role with
        | error e => simp [login, loginTry, hf, hv, hg] at h
        | ok tokens =>
          cases hc2 : store.any (fun u2 => u2.id == user.id) with
          | false =>
            simp [login, loginTry, hf, hv, hg, updateRtHash, hc2] at h
          | true =>
            refine ⟨user, List.mem_of_find?_eq_some hf, ?_⟩
            simp [login, loginTry, hf, hv, hg, updateRtHash, hc2] at h
            rw [← h]
  · intro out h
    cases hf : store.find? (fun u => u.id == userId) with
    | none => simp [refreshTokens, hf] at h
    | some user =>
      cases hrt : user.refreshToken with
      | none => simp [refreshTokens, hf, hrt] at h
      | some fp =>
        cases hv : verify fp rt with
        | false => simp [refreshTokens, hf, hrt, hv] at h
        | true =>
          cases hg : getTokens cfg sg user.id user.email user.role with
          | error e => simp [refreshTokens, hf, hrt, hv, hg] at h
          | ok tokens =>
            cases hc2 : store.any (fun u2 => u2.id == user.id) with
            | false =>
              simp [refreshTokens, hf, hrt, hv, hg, updateRtHash, hc2] at h
            | true =>
              refine ⟨user, List.mem_of_find?_eq_some hf, ?_⟩
              simp [refreshTokens, hf, hrt, hv, hg, updateRtHash, hc2] at h
              rw [← h]

/-- Claim C7, witness: the projection applied to Ann with a different
password hash, a stored fingerprint and different timestamps yields the
same sanitized payload as for Ann herself. -/
theorem sanitized_payloads_witness :
    sanitizeUser { ann with password := "other", refreshToken := some "fp",
                            createdAt := 9, updatedAt := 9 }
      = sanitizeUser ann :=
  (sanitized_payloads cfg0 idealSigner [ann] 2 0
      { email := "b@x.com", password := "pw", name := "B" }
      { email := "a@x.com", password := "pw1" } 1 "rt1").1
    ann "other" (some "fp") 9 9

end Bookstore
